import Mathlib

/-!
Formal model of the vanillajs-router hash router (src/router.js) and proofs
about its parameter codec, route snapshot builder and navigation engine.
Machine integers do not occur; JS numbers met here are modelled as exact
rationals, and JS objects as Lean structures (reference aliasing is modelled
explicitly where a claim depends on it).
-/

namespace VRouter

/-- Exact rational in lowest terms (numerator over positive
denominator), the idealisation used for JS numbers. -/
structure QVal where
  num : Int
  den : Nat
deriving DecidableEq, Repr

/-- Normalised rational from a sign and a numerator / denominator pair
of naturals (denominator nonzero by construction). -/
def qOfParts (neg : Bool) (n d : Nat) : QVal :=
  if n = 0 then ⟨0, 1⟩
  else
    let g := Nat.gcd n d
    ⟨if neg then -((n / g : Nat) : Int) else ((n / g : Nat) : Int), d / g⟩

/-- Result type of JS Number conversion: a finite rational or a signed
infinity; the absent case (NaN) is modelled by Option. -/
inductive JSNum where
  | fin : QVal → JSNum
  | inf : Bool → JSNum
deriving DecidableEq, Repr

/-- Values produced by coerceValue: one of boolean, null, undefined,
number, string, mirroring the JS union. -/
inductive JSValue where
  | boolean : Bool → JSValue
  | null : JSValue
  | undef : JSValue
  | number : JSNum → JSValue
  | string : String → JSValue
deriving DecidableEq, Repr

/-- Whitespace characters recognised by JS String.prototype.trim and by
Number conversion (the common ones: space, tab, LF, CR, VT, FF, NBSP,
BOM, LS, PS). -/
def isJsWhitespace (c : Char) : Bool :=
  c = ' ' || c = '\t' || c = '\n' || c = '\r' ||
  c = Char.ofNat 11 || c = Char.ofNat 12 || c = Char.ofNat 160 ||
  c = Char.ofNat 0xfeff || c = Char.ofNat 0x2028 || c = Char.ofNat 0x2029

/-- JS value.trim(): strip whitespace from both ends. -/
def jsTrim (s : String) : String :=
  String.mk (((s.data.dropWhile isJsWhitespace).reverse.dropWhile isJsWhitespace).reverse)

/-- Decimal digit test. -/
def isDigit (c : Char) : Bool := '0' ≤ c && c ≤ '9'

/-- Numeric value of a list of decimal digits. -/
def digitsToNat (ds : List Char) : Nat :=
  ds.foldl (fun a c => a * 10 + (c.toNat - 48)) 0

/-- Value of one digit in a given radix (hex covers the others). -/
def radixDigitVal (c : Char) : Option Nat :=
  if '0' ≤ c && c ≤ '9' then some (c.toNat - 48)
  else if 'a' ≤ c && c ≤ 'f' then some (c.toNat - 87)
  else if 'A' ≤ c && c ≤ 'F' then some (c.toNat - 55)
  else none

/-- Value of a digit string in a radix, none if empty or a digit is out of
range. -/
def parseRadix (radix : Nat) (cs : List Char) : Option Nat :=
  match cs with
  | [] => none
  | [c] => match radixDigitVal c with
    | some v => if v < radix then some v else none
    | none => none
  | c :: rest =>
    match radixDigitVal c, parseRadix radix rest with
    | some v, some acc => if v < radix then some (v * (radix ^ rest.length) + acc) else none
    | _, _ => none

/-- Exponent suffix of a JS decimal literal: empty, or e / E with optional
sign and at least one digit, consuming the whole remainder; scales the
numerator / denominator pair by the matching power of ten. -/
def parseExpPart (cs : List Char) (n d : Nat) : Option (Nat × Nat) :=
  match cs with
  | [] => some (n, d)
  | c :: r =>
    if c = 'e' || c = 'E' then
      let signed : Bool × List Char :=
        match r with
        | '+' :: t => (true, t)
        | '-' :: t => (false, t)
        | t => (true, t)
      let ed := signed.2.takeWhile isDigit
      let rest := signed.2.dropWhile isDigit
      if ed.isEmpty || !rest.isEmpty then none
      else if signed.1 then some (n * 10 ^ digitsToNat ed, d)
      else some (n, d * 10 ^ digitsToNat ed)
    else none

/-- Unsigned decimal part of a JS StringNumericLiteral: digits, optional
dot and fraction digits, optional exponent; the whole list must be
consumed; the value is returned as a numerator / denominator pair. -/
def parseUnsignedDec (cs : List Char) : Option (Nat × Nat) :=
  let ip := cs.takeWhile isDigit
  let r1 := cs.dropWhile isDigit
  match r1 with
  | '.' :: r2 =>
    let fp := r2.takeWhile isDigit
    let r3 := r2.dropWhile isDigit
    if ip.isEmpty && fp.isEmpty then none
    else parseExpPart r3 (digitsToNat ip * 10 ^ fp.length + digitsToNat fp) (10 ^ fp.length)
  | _ =>
    if ip.isEmpty then none
    else parseExpPart r1 (digitsToNat ip) 1

/-- Non-decimal integer literal: 0x / 0X, 0o / 0O, 0b / 0B with digits in
the matching radix; no sign allowed. -/
def parseNonDecimal (cs : List Char) : Option Nat :=
  match cs with
  | '0' :: x :: rest =>
    if x = 'x' || x = 'X' then parseRadix 16 rest
    else if x = 'o' || x = 'O' then parseRadix 8 rest
    else if x = 'b' || x = 'B' then parseRadix 2 rest
    else none
  | _ => none

/-- JS Number(value) on strings, idealised over exact rationals: trim
whitespace, empty means zero, optional sign with Infinity or a decimal
literal, or an unsigned non-decimal literal; anything else is NaN
(returned as none). -/
def jsStrToNum (s : String) : Option JSNum :=
  let cs := (s.data.dropWhile isJsWhitespace).reverse.dropWhile isJsWhitespace |>.reverse
  match cs with
  | [] => some (JSNum.fin ⟨0, 1⟩)
  | _ =>
    match parseNonDecimal cs with
    | some v => some (JSNum.fin ⟨(v : Int), 1⟩)
    | none =>
      let signed : Bool × List Char :=
        match cs with
        | '+' :: t => (false, t)
        | '-' :: t => (true, t)
        | t => (false, t)
      if signed.2 = ['I', 'n', 'f', 'i', 'n', 'i', 't', 'y'] then
        some (JSNum.inf (!signed.1))
      else
        match parseUnsignedDec signed.2 with
        | some nd => some (JSNum.fin (qOfParts signed.1 nd.1 nd.2))
        | none => none

/-- coerceValue from src/router.js lines 36-51: literal true / false /
null / undefined first, then a number when Number(value) is not NaN and
value.trim() is nonempty, else the original string. -/
def coerceValue (value : String) : JSValue :=
  if value = "true" then JSValue.boolean true
  else if value = "false" then JSValue.boolean false
  else if value = "null" then JSValue.null
  else if value = "undefined" then JSValue.undef
  else
    match jsStrToNum value with
    | some n => if jsTrim value ≠ "" then JSValue.number n else JSValue.string value
    | none => JSValue.string value

/-- One insertion step of paramsToObj: append the value to the list held
under the key, creating the key at the end on first sight (JS object
insertion order). -/
def insertParam (out : List (String × List String)) (k v : String) :
    List (String × List String) :=
  match out with
  | [] => [(k, [v])]
  | (k2, vs) :: rest =>
    if k2 = k then (k2, vs ++ [v]) :: rest else (k2, vs) :: insertParam rest k v

/-- paramsToObj from src/router.js lines 23-30: fold the ordered pair
sequence into a key to list-of-values mapping. -/
def paramsToObj (pairs : List (String × String)) : List (String × List String) :=
  pairs.foldl (fun out kv => insertParam out kv.1 kv.2) []

/-- coerceParams from src/router.js lines 57-63: element-wise coercion of
every value list. -/
def coerceParams (params : List (String × List String)) : List (String × List JSValue) :=
  params.map (fun kv => (kv.1, kv.2.map coerceValue))

/-- JS String.prototype.split on a single separator character: the list of
segments between occurrences; the empty string yields one empty segment. -/
def splitOnChar (sep : Char) : List Char → List (List Char)
  | [] => [[]]
  | c :: cs =>
    match splitOnChar sep cs with
    | [] => [[]]
    | h :: t => if c = sep then [] :: h :: t else (c :: h) :: t

/-- Percent-decoding with plus-for-space, at byte granularity: a percent
followed by two hex digits becomes that code point, an invalid escape is
left untouched. -/
def percentDecode : List Char → List Char
  | [] => []
  | '%' :: a :: b :: rest =>
    match radixDigitVal a, radixDigitVal b with
    | some ha, some hb =>
      if ha < 16 && hb < 16 then Char.ofNat (16 * ha + hb) :: percentDecode rest
      else '%' :: percentDecode (a :: b :: rest)
    | _, _ => '%' :: percentDecode (a :: b :: rest)
  | c :: rest => (if c = '+' then ' ' else c) :: percentDecode rest

/-- URLSearchParams construction from a query-like string: strip one
leading question mark, split on ampersands, drop empty segments, split
each segment on its first equals sign, percent-decode key and value. -/
def parseQS (input : String) : List (String × String) :=
  let cs := match input.data with
    | '?' :: t => t
    | l => l
  (splitOnChar '&' cs).filterMap (fun seg =>
    if seg.isEmpty then none
    else
      let k := seg.takeWhile (fun c => c != '=')
      let r := seg.dropWhile (fun c => c != '=')
      let v : List Char := match r with
        | _ :: t => t
        | [] => []
      some (String.mk (percentDecode k), String.mk (percentDecode v)))

/-- Route object produced by makeRoute: path plus the four parameter
views. -/
structure RouteObj where
  path : String
  query : List (String × List String)
  params : List (String × List String)
  queryTyped : List (String × List JSValue)
  paramsTyped : List (String × List JSValue)
deriving DecidableEq, Repr, Inhabited

/-- Hash with the leading marker removed, embedding the regex
replace ^#!\/? of src/router.js line 82: remove #! plus an optional
following slash; a hash not starting with #! is left whole. -/
def routeRaw (hash : String) : List Char :=
  if hash.data.take 3 = ['#', '!', '/'] then hash.data.drop 3
  else if hash.data.take 2 = ['#', '!'] then hash.data.drop 2
  else hash.data

/-- Segments of the stripped hash split on every question mark
(src/router.js line 83). -/
def hashParts (hash : String) : List (List Char) :=
  splitOnChar '?' (routeRaw hash)

/-- parts[0] with empty-string default (src/router.js line 84). -/
def routePath (hash : String) : String :=
  String.mk ((hashParts hash).headD [])

/-- parts[1] with empty-string default (src/router.js line 85); note the
split is on every question mark, so this is only the text between the
first and second one. -/
def routeHashQuery (hash : String) : String :=
  String.mk ((hashParts hash).getD 1 [])

/-- makeRoute from src/router.js lines 80-98, as a function of the
current hash fragment and document query string. -/
def makeRoute (hash search : String) : RouteObj :=
  let searchPairs := parseQS (String.mk (search.data.drop 1))
  let hashPairs := parseQS (routeHashQuery hash)
  { path := routePath hash
    query := paramsToObj searchPairs
    params := paramsToObj hashPairs
    queryTyped := coerceParams (paramsToObj searchPairs)
    paramsTyped := coerceParams (paramsToObj hashPairs) }

/-- A before-guard: receives (candidate, current) and may signal failure
with a message (a thrown error or rejected promise in the source). -/
def GuardFn : Type := RouteObj → RouteObj → Except String Unit

/-- An after-hook: receives (candidate, previous) and may throw. -/
def HookFn : Type := RouteObj → RouteObj → Except String Unit

/-- Scroll record stored per path: window offsets, capture timestamp and
the path itself. -/
structure ScrollRecord where
  winX : Int
  winY : Int
  timestamp : Nat
  route : String
deriving DecidableEq, Repr

/-- Tag of a scroll event. -/
inductive ScrollType where
  | capture
  | restore
  | update
deriving DecidableEq, Repr

/-- Payload delivered to scroll observers: the tag plus the record
fields; observers may mutate it (modelled as returning the updated
payload, which threads through the observer chain like the one shared
JS object does). -/
structure ScrollEvent where
  ty : ScrollType
  payload : ScrollRecord
deriving DecidableEq, Repr

/-- A scroll observer, able to mutate the shared event payload. -/
def ScrollObsFn : Type := ScrollEvent → ScrollEvent

/-- Severity tag of a status event. -/
inductive Severity where
  | info
  | loading
  | success
  | error
deriving DecidableEq, Repr

/-- Externally visible actions the engine hands to the environment:
deferred smooth scroll to an element, deferred scroll restoration,
history operations and address writes. -/
inductive Scheduled where
  | smoothScrollTo : String → Scheduled
  | restoreTo : ScrollRecord → Scheduled
  | historyWrite : Bool → String → Scheduled
  | historyGo : Int → Scheduled
  | historyBack : Scheduled
  | historyForward : Scheduled
deriving DecidableEq, Repr

/-- Observable trace of one engine operation: status events emitted,
final scroll-event payloads after the observer chain, before-guard and
after-hook invocations with their arguments (and for hooks the
outcome), and scheduled environment actions. -/
structure Trace where
  status : List (String × Severity)
  scrollEvents : List ScrollEvent
  guardCalls : List (RouteObj × RouteObj)
  hookCalls : List (RouteObj × RouteObj × Except String Unit)
  scheduled : List Scheduled

/-- The empty trace. -/
def Trace.emp : Trace := ⟨[], [], [], [], []⟩

/-- Traces concatenate componentwise in execution order. -/
def Trace.cat (a b : Trace) : Trace :=
  ⟨a.status ++ b.status, a.scrollEvents ++ b.scrollEvents,
   a.guardCalls ++ b.guardCalls, a.hookCalls ++ b.hookCalls,
   a.scheduled ++ b.scheduled⟩

instance : Append Trace := ⟨Trace.cat⟩

/-- The module-level mutable state of src/router.js lines 104-118 and
160: current and previous route, the four registries (callbacks tagged
with a registration identity standing for JS reference identity), the
destroyed latch, the last processed hash, and the scroll table. -/
structure RouterState where
  route : RouteObj
  prevRoute : RouteObj
  beforeListeners : List (Nat × GuardFn)
  afterListeners : List (Nat × HookFn)
  statusCallbacks : List Nat
  scrollCallbacks : List (Nat × ScrollObsFn)
  destroyed : Bool
  lastHash : String
  scrollPositions : List (String × ScrollRecord)

/-- The browser environment as the router reads it: address hash and
query string, viewport offsets, a clock, and the set of element ids the
document can look up. -/
structure Env where
  hash : String
  search : String
  pageXOffset : Int
  pageYOffset : Int
  now : Nat
  elementIds : List String

/-- Result of an operation returning updated state plus a trace. -/
structure OpResult where
  state : RouterState
  trace : Trace

/-- Result of canNavigate. -/
structure GuardOutcome where
  ok : Bool
  state : RouterState
  trace : Trace

/-- Result of a programmatic navigation (changeHash): the boolean the
promise resolves to, plus environment, state and trace. -/
structure NavResult where
  resolved : Bool
  env : Env
  state : RouterState
  trace : Trace

/-- Result of handleRouteChange. -/
structure StepResult where
  env : Env
  state : RouterState
  trace : Trace

/-- Message prefix of the error status event (src/router.js line 229). -/
def statusErrMark : String := "❌ "

/-- Loading status message (src/router.js lines 371 and 396). -/
def statusLoadingMsg : String := "🔄 Navigating..."

/-- Success status message (src/router.js line 258). -/
def statusSuccessMsg : String := "✅ Navigation complete"

/-- Map.set on the scroll table: overwrite the record under the key, or
append the key. -/
def setScroll (m : List (String × ScrollRecord)) (k : String) (v : ScrollRecord) :
    List (String × ScrollRecord) :=
  match m with
  | [] => [(k, v)]
  | (k2, v2) :: rest => if k2 = k then (k, v) :: rest else (k2, v2) :: setScroll rest k v

/-- Map.get on the scroll table. -/
def getScroll (m : List (String × ScrollRecord)) (k : String) : Option ScrollRecord :=
  match m with
  | [] => none
  | (k2, v2) :: rest => if k2 = k then some v2 else getScroll rest k

/-- Thread one event payload through the scroll observer chain in
registration order; each observer sees the mutations of the ones before
it, as with the single shared JS object. -/
def runScrollObservers (cbs : List (Nat × ScrollObsFn)) (ev : ScrollEvent) : ScrollEvent :=
  cbs.foldl (fun e c => c.2 e) ev

/-- captureScroll from src/router.js lines 166-178: build the record
from the viewport, emit a capture event carrying a copy of it to the
observers, then store the original record (not the observers' possibly
mutated payload) under the path, overwriting any prior record. -/
def captureScroll (env : Env) (s : RouterState) (routePath : String) : OpResult :=
  let scrollData : ScrollRecord := ⟨env.pageXOffset, env.pageYOffset, env.now, routePath⟩
  let finalPayload := runScrollObservers s.scrollCallbacks ⟨ScrollType.capture, scrollData⟩
  ⟨{ s with scrollPositions := setScroll s.scrollPositions routePath scrollData },
   ⟨[], [finalPayload], [], [], []⟩⟩

/-- restoreScroll from src/router.js lines 184-195: when a record exists
for the path, schedule (for the next animation frame) the viewport
restoration carrying the saved record; state is untouched. -/
def restoreScroll (s : RouterState) (routePath : String) : Trace :=
  match getScroll s.scrollPositions routePath with
  | some saved => ⟨[], [], [], [], [Scheduled.restoreTo saved]⟩
  | none => Trace.emp

/-- Promise.all over the guard results: the first rejection in array
order wins, otherwise success (all guards settle; with synchronous
guards completion order is array order). -/
def runGuardsExcept (gs : List (Nat × GuardFn)) (cand cur : RouteObj) : Except String Unit :=
  match gs with
  | [] => Except.ok ()
  | g :: rest =>
    match g.2 cand cur with
    | Except.error m => Except.error m
    | Except.ok _ => runGuardsExcept rest cand cur

/-- canNavigate from src/router.js lines 206-232: refuse when destroyed;
capture the scroll position of the current path when nonempty; dispatch
every before-guard with (candidate, current); succeed when all complete,
otherwise emit the error status event with the failing message and
refuse. -/
def canNavigate (env : Env) (s : RouterState) (newRoute : RouteObj) : GuardOutcome :=
  if s.destroyed then ⟨false, s, Trace.emp⟩
  else
    let cap : OpResult :=
      if s.route.path = "" then ⟨s, Trace.emp⟩ else captureScroll env s s.route.path
    let gtrace : Trace :=
      ⟨[], [], s.beforeListeners.map (fun _ => (newRoute, s.route)), [], []⟩
    match runGuardsExcept s.beforeListeners newRoute s.route with
    | Except.ok _ => ⟨true, cap.state, cap.trace ++ gtrace⟩
    | Except.error m =>
      ⟨false, cap.state,
       cap.trace ++ gtrace ++ ⟨[(statusErrMark ++ m, Severity.error)], [], [], [], []⟩⟩

/-- completeNavigation from src/router.js lines 238-259: when not
destroyed, set previous to a copy of current and current to the
candidate, invoke every after-hook in registration order with the
candidate and that copy (each hook fault caught in isolation), restore
the scroll record of the candidate path, and emit the success status
event. -/
def completeNavigation (s : RouterState) (newRoute : RouteObj) : OpResult :=
  if s.destroyed then ⟨s, Trace.emp⟩
  else
    let prevR := s.route
    let hookTrace := s.afterListeners.map (fun h => (newRoute, prevR, h.2 newRoute prevR))
    let s2 := { s with prevRoute := prevR, route := newRoute }
    ⟨s2,
     (⟨[], [], [], hookTrace, []⟩ : Trace) ++ restoreScroll s2 newRoute.path ++
       ⟨[(statusSuccessMsg, Severity.success)], [], [], [], []⟩⟩

/-- Character-list test that the second list begins with the first. -/
def listStarts : List Char → List Char → Bool
  | [], _ => true
  | _ :: _, [] => false
  | p :: ps, c :: cs => p = c && listStarts ps cs

/-- JS String.prototype.startsWith. -/
def strStarts (s pat : String) : Bool := listStarts pat.data s.data

/-- Element lookup: document.getElementById, which never finds the
empty id. -/
def elementExists (env : Env) (id : String) : Bool :=
  id ≠ "" && env.elementIds.contains id

/-- isNativeAnchor from src/router.js lines 352-355: the hash does not
start with the routing marker and the document holds an element whose id
is the hash without its leading character. -/
def isNativeAnchor (env : Env) (hash : String) : Bool :=
  !(strStarts hash "#!/") && elementExists env (String.mk (hash.data.drop 1))

/-- Leading slashes stripped from a programmatic target path
(src/router.js line 393). -/
def cleanPathOf (newPath : String) : String :=
  String.mk (newPath.data.dropWhile (fun c => c = '/'))

/-- The address written for a programmatic target: passed through when
it already starts with a hash mark, else the marker plus the cleaned
path (src/router.js line 394). -/
def safePathOf (newPath : String) : String :=
  if strStarts newPath "#" then newPath else "#!/" ++ cleanPathOf newPath

/-- The candidate a programmatic navigation tests against the guards: a
fresh snapshot of the current address with only its path overridden by
the cleaned target (src/router.js lines 399-402). -/
def tempRouteOf (env : Env) (newPath : String) : RouteObj :=
  { makeRoute env.hash env.search with path := cleanPathOf newPath }

/-- handleRouteChange from src/router.js lines 347-385: stop when
destroyed; on a native anchor schedule a smooth scroll and stop; stop
when the hash equals the last processed one; otherwise emit the loading
status, build the candidate from the environment, run the guard phase,
and either record the hash and commit, or rewrite the address to the
marker-prefixed previous path (empty address when the previous path is
empty) and record that as last processed. -/
def handleRouteChange (env : Env) (s : RouterState) : StepResult :=
  if s.destroyed then ⟨env, s, Trace.emp⟩
  else if isNativeAnchor env env.hash then
    ⟨env, s, ⟨[], [], [], [], [Scheduled.smoothScrollTo (String.mk (env.hash.data.drop 1))]⟩⟩
  else if env.hash = s.lastHash then ⟨env, s, Trace.emp⟩
  else
    let t0 : Trace := ⟨[(statusLoadingMsg, Severity.loading)], [], [], [], []⟩
    let newRoute := makeRoute env.hash env.search
    let g := canNavigate env s newRoute
    if g.ok then
      let c := completeNavigation { g.state with lastHash := env.hash } newRoute
      ⟨env, c.state, t0 ++ g.trace ++ c.trace⟩
    else
      let rollbackHash := if g.state.prevRoute.path ≠ "" then "#!/" ++ g.state.prevRoute.path else ""
      ⟨{ env with hash := rollbackHash }, { g.state with lastHash := rollbackHash },
       t0 ++ g.trace⟩

/-- changeHash from src/router.js lines 391-421: emit the loading
status, synthesize the candidate, run the guard phase; on refusal
resolve false with the address untouched; on success write the address
(history push or replace), record it as last processed, commit, and
resolve true. -/
def changeHash (env : Env) (s : RouterState) (newPath : String) (repl : Bool) : NavResult :=
  let t0 : Trace := ⟨[(statusLoadingMsg, Severity.loading)], [], [], [], []⟩
  let temp := tempRouteOf env newPath
  let g := canNavigate env s temp
  if g.ok then
    let sp := safePathOf newPath
    let wtrace : Trace := ⟨[], [], [], [], [Scheduled.historyWrite repl sp]⟩
    let c := completeNavigation { g.state with lastHash := sp } temp
    ⟨true, { env with hash := sp }, c.state, t0 ++ g.trace ++ wtrace ++ c.trace⟩
  else ⟨false, env, g.state, t0 ++ g.trace⟩

/-- push from the public API (src/router.js line 469). -/
def pushOp (env : Env) (s : RouterState) (path : String) : NavResult :=
  changeHash env s path false

/-- replace from the public API (src/router.js line 470). -/
def replaceOp (env : Env) (s : RouterState) (path : String) : NavResult :=
  changeHash env s path true

/-- currentRoute (src/router.js line 473): the current snapshot, as a
value (the copy-vs-alias distinction is modelled in the reference-heap
section below). -/
def currentRoute (s : RouterState) : RouteObj := s.route

/-- previousRoute (src/router.js line 474). -/
def previousRoute (s : RouterState) : RouteObj := s.prevRoute

/-- getRouteState (src/router.js line 475). -/
def getRouteState (s : RouterState) : RouteObj × RouteObj := (s.route, s.prevRoute)

/-- getTypedParams (src/router.js line 478). -/
def getTypedParams (s : RouterState) : List (String × List JSValue) := s.route.paramsTyped

/-- getTypedQuery (src/router.js line 479). -/
def getTypedQuery (s : RouterState) : List (String × List JSValue) := s.route.queryTyped

/-- saveScrollPosition (src/router.js line 482): captureScroll with no
destroyed check. -/
def saveScrollPosition (env : Env) (s : RouterState) (path : String) : OpResult :=
  captureScroll env s path

/-- restoreScrollPosition (src/router.js line 483). -/
def restoreScrollPosition (s : RouterState) (path : String) : Trace :=
  restoreScroll s path

/-- clearScrollHistory (src/router.js line 484). -/
def clearScrollHistory (s : RouterState) : RouterState :=
  { s with scrollPositions := [] }

/-- go (src/router.js line 487): a history pass-through, no destroyed
check. -/
def goOp (n : Int) : Trace := ⟨[], [], [], [], [Scheduled.historyGo n]⟩

/-- back (src/router.js line 488). -/
def backOp : Trace := ⟨[], [], [], [], [Scheduled.historyBack]⟩

/-- forward (src/router.js line 489). -/
def forwardOp : Trace := ⟨[], [], [], [], [Scheduled.historyForward]⟩

/-- beforeEach registration (src/router.js lines 269-283): inert when
destroyed, else append and immediately invoke the guard once with
(current, previous). -/
def subscribeBefore (s : RouterState) (id : Nat) (g : GuardFn) : OpResult :=
  if s.destroyed then ⟨s, Trace.emp⟩
  else
    ⟨{ s with beforeListeners := s.beforeListeners ++ [(id, g)] },
     ⟨[], [], [(s.route, s.prevRoute)], [], []⟩⟩

/-- afterEach registration (src/router.js lines 289-301): inert when
destroyed, else append with no immediate invocation. -/
def subscribeAfter (s : RouterState) (id : Nat) (h : HookFn) : OpResult :=
  if s.destroyed then ⟨s, Trace.emp⟩
  else ⟨{ s with afterListeners := s.afterListeners ++ [(id, h)] }, Trace.emp⟩

/-- onStatus registration (src/router.js lines 307-319). -/
def subscribeStatus (s : RouterState) (id : Nat) : OpResult :=
  if s.destroyed then ⟨s, Trace.emp⟩
  else ⟨{ s with statusCallbacks := s.statusCallbacks ++ [id] }, Trace.emp⟩

/-- onScroll registration (src/router.js lines 325-337). -/
def subscribeScroll (s : RouterState) (id : Nat) (f : ScrollObsFn) : OpResult :=
  if s.destroyed then ⟨s, Trace.emp⟩
  else ⟨{ s with scrollCallbacks := s.scrollCallbacks ++ [(id, f)] }, Trace.emp⟩

/-- splice of the first registration with the given identity. -/
def removeFirstTagged (l : List (Nat × α)) (id : Nat) : List (Nat × α) :=
  match l with
  | [] => []
  | x :: rest => if x.1 = id then rest else x :: removeFirstTagged rest id

/-- splice of the first matching identity in a plain identity list. -/
def removeFirstNat (l : List Nat) (id : Nat) : List Nat :=
  match l with
  | [] => []
  | x :: rest => if x = id then rest else x :: removeFirstNat rest id

/-- Disposer returned by beforeEach: inert when destroyed, else remove
the first matching registration. -/
def disposeBefore (s : RouterState) (id : Nat) : RouterState :=
  if s.destroyed then s
  else { s with beforeListeners := removeFirstTagged s.beforeListeners id }

/-- Disposer returned by afterEach. -/
def disposeAfter (s : RouterState) (id : Nat) : RouterState :=
  if s.destroyed then s
  else { s with afterListeners := removeFirstTagged s.afterListeners id }

/-- Disposer returned by onStatus. -/
def disposeStatus (s : RouterState) (id : Nat) : RouterState :=
  if s.destroyed then s
  else { s with statusCallbacks := removeFirstNat s.statusCallbacks id }

/-- Disposer returned by onScroll. -/
def disposeScroll (s : RouterState) (id : Nat) : RouterState :=
  if s.destroyed then s
  else { s with scrollCallbacks := removeFirstTagged s.scrollCallbacks id }

/-- destroy (src/router.js lines 492-506): set the latch, blank the last
processed hash, empty every registry and the scroll table; the current
and previous snapshots are left in place. -/
def destroyOp (s : RouterState) : RouterState :=
  { s with destroyed := true, lastHash := "", beforeListeners := [], afterListeners := [],
           statusCallbacks := [], scrollCallbacks := [], scrollPositions := [] }

/-- Construction (src/router.js lines 105-118): current route from the
address, previous as a copy of it, empty registries, destroyed unset,
last processed hash as read. -/
def mkInitial (env : Env) : RouterState :=
  { route := makeRoute env.hash env.search
    prevRoute := makeRoute env.hash env.search
    beforeListeners := []
    afterListeners := []
    statusCallbacks := []
    scrollCallbacks := []
    destroyed := false
    lastHash := env.hash
    scrollPositions := [] }

/-- Object heap modelling JS reference semantics for route snapshots:
a store of route objects addressed by index, with the indices of the
internal current and previous snapshots. -/
structure RefHeap where
  objs : List RouteObj
  routeIdx : Nat
  prevIdx : Nat

/-- Dereference an object address. -/
def heapRead (h : RefHeap) (i : Nat) : RouteObj :=
  h.objs.getD i default

/-- Allocate a fresh object and return its address. -/
def heapAlloc (h : RefHeap) (r : RouteObj) : Nat × RefHeap :=
  (h.objs.length, { h with objs := h.objs ++ [r] })

/-- currentRoute under reference semantics (src/router.js line 473): a
freshly allocated shallow copy of the internal current snapshot. -/
def currentRouteRef (h : RefHeap) : Nat × RefHeap :=
  heapAlloc h (heapRead h h.routeIdx)

/-- previousRoute under reference semantics (src/router.js line 474). -/
def previousRouteRef (h : RefHeap) : Nat × RefHeap :=
  heapAlloc h (heapRead h h.prevIdx)

/-- getRouteState under reference semantics (src/router.js line 475):
fresh shallow copies of both snapshots, returned as (to, from)
addresses. -/
def getRouteStateRef (h : RefHeap) : (Nat × Nat) × RefHeap :=
  let a := heapAlloc h (heapRead h h.routeIdx)
  let b := heapAlloc a.2 (heapRead a.2 h.prevIdx)
  ((a.1, b.1), b.2)

/-- A caller assigning to the top-level path field of the object behind
an address. -/
def assignPathRef (h : RefHeap) (i : Nat) (p : String) : RefHeap :=
  { h with objs := h.objs.set i { heapRead h i with path := p } }

/-- Segment of a character list between its first and second occurrence
of the separator (empty when the separator is absent): the independent
description used to restate the hash-splitting behaviour. -/
def secondSegModel (sep : Char) (cs : List Char) : List Char :=
  match cs.dropWhile (fun c => c != sep) with
  | [] => []
  | _ :: t => t.takeWhile (fun c => c != sep)

/-- Marker stripping as claim C4 words it: a hash mark followed by an
optional routing marker and an optional leading slash. -/
def c4SpecStrip (hash : String) : List Char :=
  match hash.data with
  | '#' :: '!' :: '/' :: r => r
  | '#' :: '!' :: r => r
  | '#' :: '/' :: r => r
  | '#' :: r => r
  | l => l

/-- Path as claim C4 words it: everything before the first question
mark of the stripped hash. -/
def c4SpecPath (hash : String) : String :=
  String.mk ((c4SpecStrip hash).takeWhile (fun c => c != '?'))

/-- Hash query as claim C4 words it: all text after the first question
mark, later question marks included. -/
def c4SpecHashQuery (hash : String) : String :=
  match (c4SpecStrip hash).dropWhile (fun c => c != '?') with
  | [] => ""
  | _ :: t => String.mk t

/-- Blank environment: empty address and query, viewport at the origin,
no elements. -/
def envA : Env := ⟨"", "", 0, 0, 0, []⟩

/-- Environment whose address is a native anchor to an existing
element. -/
def envAnchor : Env := ⟨"#section1", "", 0, 0, 0, ["section1"]⟩

/-- Environment holding a route address, used to drive a hashchange
cycle. -/
def envB : Env := ⟨"#!/x", "", 0, 0, 0, []⟩

/-- A before-guard that always completes. -/
def okGuard : GuardFn := fun _ _ => Except.ok ()

/-- A before-guard that always signals failure. -/
def failGuard : GuardFn := fun _ _ => Except.error "Guard failure"

/-- An after-hook that always throws. -/
def failHook : HookFn := fun _ _ => Except.error "Hook failure"

/-- An after-hook that always completes. -/
def okHook : HookFn := fun _ _ => Except.ok ()

/-- A scroll observer that mutates the window x offset of the shared
event payload. -/
def mutObs : ScrollObsFn := fun e => { e with payload := { e.payload with winX := 999 } }

/-- Fresh router over the blank environment with one always-passing
before-guard registered. -/
def stateOkGuard : RouterState := (subscribeBefore (mkInitial envA) 1 okGuard).state

/-- Fresh router over the blank environment with one always-failing
before-guard registered. -/
def stateFailGuard : RouterState := (subscribeBefore (mkInitial envA) 1 failGuard).state

/-- Fresh router with a throwing and a passing after-hook and a stored
scroll record for path p. -/
def stateHooks : RouterState :=
  { mkInitial envA with
      afterListeners := [(1, failHook), (2, okHook)]
      scrollPositions := [("p", ⟨3, 4, 5, "p"⟩)] }

/-- Fresh router with one payload-mutating scroll observer and a stale
record stored for path home. -/
def stateMutObs : RouterState :=
  { mkInitial envA with
      scrollCallbacks := [(1, mutObs)]
      scrollPositions := [("home", ⟨5, 6, 7, "home"⟩)] }

/-- Concrete two-object heap for exercising the reference-semantics
getters. -/
def heapW : RefHeap :=
  ⟨[makeRoute ("#!/a") "", makeRoute ("#!/b") ""], 0, 1⟩

/-- Status component of a trace concatenation. -/
@[simp] theorem trace_cat_status (a b : Trace) : (a ++ b).status = a.status ++ b.status := rfl

/-- Scroll-event component of a trace concatenation. -/
@[simp] theorem trace_cat_scrollEvents (a b : Trace) :
    (a ++ b).scrollEvents = a.scrollEvents ++ b.scrollEvents := rfl

/-- Guard-call component of a trace concatenation. -/
@[simp] theorem trace_cat_guardCalls (a b : Trace) :
    (a ++ b).guardCalls = a.guardCalls ++ b.guardCalls := rfl

/-- Hook-call component of a trace concatenation. -/
@[simp] theorem trace_cat_hookCalls (a b : Trace) :
    (a ++ b).hookCalls = a.hookCalls ++ b.hookCalls := rfl

/-- Scheduled component of a trace concatenation. -/
@[simp] theorem trace_cat_scheduled (a b : Trace) :
    (a ++ b).scheduled = a.scheduled ++ b.scheduled := rfl

/-- A scroll restoration never emits status events. -/
@[simp] theorem restoreScroll_status (s : RouterState) (p : String) :
    (restoreScroll s p).status = [] := by
  unfold restoreScroll
  cases getScroll s.scrollPositions p <;> rfl

/-- A scroll restoration never invokes hooks. -/
@[simp] theorem restoreScroll_hookCalls (s : RouterState) (p : String) :
    (restoreScroll s p).hookCalls = [] := by
  unfold restoreScroll
  cases getScroll s.scrollPositions p <;> rfl

/-- The restoration scheduled for a stored record. -/
theorem restoreScroll_scheduled_of_get (s : RouterState) (p : String) (r : ScrollRecord)
    (h : getScroll s.scrollPositions p = some r) :
    (restoreScroll s p).scheduled = [Scheduled.restoreTo r] := by
  unfold restoreScroll
  rw [h]

/-- Membership form of the previous lemma. -/
theorem mem_restoreScroll_scheduled (s : RouterState) (p : String) (r : ScrollRecord)
    (h : getScroll s.scrollPositions p = some r) :
    Scheduled.restoreTo r ∈ (restoreScroll s p).scheduled := by
  rw [restoreScroll_scheduled_of_get s p r h]
  exact List.mem_singleton.mpr rfl

/-- Scroll capture leaves the current snapshot in place. -/
@[simp] theorem captureScroll_state_route (env : Env) (s : RouterState) (p : String) :
    (captureScroll env s p).state.route = s.route := rfl

/-- Scroll capture leaves the previous snapshot in place. -/
@[simp] theorem captureScroll_state_prevRoute (env : Env) (s : RouterState) (p : String) :
    (captureScroll env s p).state.prevRoute = s.prevRoute := rfl

/-- Scroll capture leaves the last processed hash in place. -/
@[simp] theorem captureScroll_state_lastHash (env : Env) (s : RouterState) (p : String) :
    (captureScroll env s p).state.lastHash = s.lastHash := rfl

/-- Scroll capture leaves the destroyed latch in place. -/
@[simp] theorem captureScroll_state_destroyed (env : Env) (s : RouterState) (p : String) :
    (captureScroll env s p).state.destroyed = s.destroyed := rfl

/-- Scroll capture emits no status event. -/
@[simp] theorem captureScroll_trace_status (env : Env) (s : RouterState) (p : String) :
    (captureScroll env s p).trace.status = [] := rfl

/-- When some registered guard fails on the given pair, the joined guard
run fails (with the message of the earliest failing guard). -/
theorem runGuards_error_of_exists (gs : List (Nat × GuardFn)) (a b : RouteObj)
    (h : ∃ g ∈ gs, ∃ m, g.2 a b = Except.error m) :
    ∃ m2, runGuardsExcept gs a b = Except.error m2 := by
  induction gs with
  | nil =>
    obtain ⟨g, hg, _⟩ := h
    exact absurd hg (List.not_mem_nil g)
  | cons g0 rest ih =>
    cases he : g0.2 a b with
    | error m => exact ⟨m, by unfold runGuardsExcept; rw [he]⟩
    | ok u =>
      obtain ⟨g, hg, m, hm⟩ := h
      rcases List.mem_cons.mp hg with h1 | h2
      · exfalso
        rw [h1, he] at hm
        exact Except.noConfusion hm
      · obtain ⟨m2, hm2⟩ := ih ⟨g, h2, m, hm⟩
        refine ⟨m2, ?_⟩
        unfold runGuardsExcept
        rw [he]
        exact hm2

/-- Guard-phase failure on a live router: the outcome refuses, the
snapshots and last processed hash are untouched, and the error status
event carrying the failing message is emitted. -/
theorem canNavigate_fail (env : Env) (s : RouterState) (newRoute : RouteObj)
    (hd : s.destroyed = false) (m : String)
    (hrun : runGuardsExcept s.beforeListeners newRoute s.route = Except.error m) :
    (canNavigate env s newRoute).ok = false
    ∧ (canNavigate env s newRoute).state.route = s.route
    ∧ (canNavigate env s newRoute).state.prevRoute = s.prevRoute
    ∧ (canNavigate env s newRoute).state.lastHash = s.lastHash
    ∧ (canNavigate env s newRoute).state.destroyed = false
    ∧ (statusErrMark ++ m, Severity.error) ∈ (canNavigate env s newRoute).trace.status := by
  unfold canNavigate
  rw [hd, hrun]
  by_cases hp : s.route.path = "" <;> simp [hp, hd]

/-- C1: with every registered before-guard completing, a programmatic
push resolves true and the candidate snapshot becomes current; however,
evaluating the code at push of /dashboard?tab=x shows the committed path
is dashboard?tab=x — it keeps the question mark and the query suffix,
and the subsequently delivered hashchange is deduplicated and does not
rebuild it, so the committed path is not the claimed dashboard. -/
theorem c1_push_commits_query_in_path :
    (pushOp envA stateOkGuard "/dashboard?tab=x").resolved = true
    ∧ (pushOp envA stateOkGuard "/dashboard?tab=x").state.route.path = "dashboard?tab=x"
    ∧ (pushOp envA stateOkGuard "/dashboard?tab=x").state.route.path ≠ "dashboard"
    ∧ (pushOp envA stateOkGuard "/dashboard?tab=x").state.route.path.data.contains '?' = true
    ∧ (pushOp envA stateOkGuard "/dashboard?tab=x").env.hash = "#!/dashboard?tab=x"
    ∧ (handleRouteChange (pushOp envA stateOkGuard "/dashboard?tab=x").env
        (pushOp envA stateOkGuard "/dashboard?tab=x").state).state.route.path
        = "dashboard?tab=x" := by
  refine ⟨by decide, by decide, by decide, by decide, by decide, by decide⟩

/-- C3 counterexample: after destroy, saveScrollPosition is not a
state-free no-op — it still stores a scroll record, mutating the
internal scroll table of the destroyed router. -/
theorem c3_destroyed_save_mutates :
    (saveScrollPosition envA (destroyOp (mkInitial envA)) "p").state.scrollPositions
      ≠ (destroyOp (mkInitial envA)).scrollPositions
    ∧ (destroyOp (mkInitial envA)).destroyed = true := by
  exact ⟨by decide, by decide⟩

/-- C3 as amended: after destroy every public operation is total and
returns a neutral value — push and replace resolve false leaving the
snapshots, the address and the whole state untouched, the getters still
serve the last committed snapshots, all four subscriptions and all four
disposers are inert, handleRouteChange is a no-op, restoreScrollPosition
and clearScrollHistory cannot observe or change anything (the table is
empty), destroy is idempotent and the latch is never unset — but
saveScrollPosition (and the history pass-throughs) still perform their
effects, so not every operation is mutation-free. -/
theorem c3_destroyed_operations_inert (s : RouterState) (env : Env) (p : String)
    (repl : Bool) (id i : Nat) (g : GuardFn) (hk : HookFn) (f : ScrollObsFn) :
    (changeHash env (destroyOp s) p repl).resolved = false
    ∧ (changeHash env (destroyOp s) p repl).state = destroyOp s
    ∧ (changeHash env (destroyOp s) p repl).env = env
    ∧ currentRoute (destroyOp s) = s.route
    ∧ previousRoute (destroyOp s) = s.prevRoute
    ∧ getRouteState (destroyOp s) = (s.route, s.prevRoute)
    ∧ getTypedParams (destroyOp s) = s.route.paramsTyped
    ∧ getTypedQuery (destroyOp s) = s.route.queryTyped
    ∧ subscribeBefore (destroyOp s) id g = ⟨destroyOp s, Trace.emp⟩
    ∧ subscribeAfter (destroyOp s) id hk = ⟨destroyOp s, Trace.emp⟩
    ∧ subscribeStatus (destroyOp s) id = ⟨destroyOp s, Trace.emp⟩
    ∧ subscribeScroll (destroyOp s) id f = ⟨destroyOp s, Trace.emp⟩
    ∧ disposeBefore (destroyOp s) i = destroyOp s
    ∧ disposeAfter (destroyOp s) i = destroyOp s
    ∧ disposeStatus (destroyOp s) i = destroyOp s
    ∧ disposeScroll (destroyOp s) i = destroyOp s
    ∧ handleRouteChange env (destroyOp s) = ⟨env, destroyOp s, Trace.emp⟩
    ∧ restoreScrollPosition (destroyOp s) p = Trace.emp
    ∧ clearScrollHistory (destroyOp s) = destroyOp s
    ∧ destroyOp (destroyOp s) = destroyOp s
    ∧ (destroyOp s).destroyed = true := by
  refine ⟨rfl, rfl, rfl, rfl, rfl, rfl, rfl, rfl, rfl, rfl, rfl,
    rfl, rfl, rfl, rfl, rfl, rfl, rfl, rfl, rfl, rfl⟩

/-- C7: capture does notify the scroll observers with a capture-tagged
event before storing, and does overwrite the prior record for the path;
but the payload handed to the observers is a spread copy, so the
observer's mutation (winX set to 999) is visible in the emitted payload
yet absent from the record actually stored, contradicting the claim
that payload mutations are reflected in storage. -/
theorem c7_capture_observer_mutation_lost :
    (captureScroll envA stateMutObs "home").state.scrollPositions
        = [("home", ⟨0, 0, 0, "home"⟩)]
    ∧ (captureScroll envA stateMutObs "home").trace.scrollEvents
        = [⟨ScrollType.capture, ⟨999, 0, 0, "home"⟩⟩]
    ∧ getScroll (captureScroll envA stateMutObs "home").state.scrollPositions "home"
        ≠ some ((runScrollObservers stateMutObs.scrollCallbacks
            ⟨ScrollType.capture, ⟨0, 0, 0, "home"⟩⟩).payload) := by
  refine ⟨by decide, ?_, ?_⟩
  · show (runScrollObservers stateMutObs.scrollCallbacks
      ⟨ScrollType.capture, ⟨0, 0, 0, "home"⟩⟩) :: [] = _
    decide
  · decide

/-- C8: when the hash lacks the routing marker and names an existing
element, handleRouteChange only schedules a smooth scroll to that
element and stops: the state (current and previous snapshots, last
known address) is unchanged, the environment is untouched, and no
status event, before-guard or after-hook fires. -/
theorem c8_native_anchor_bypass (env : Env) (s : RouterState)
    (hd : s.destroyed = false)
    (hm : strStarts env.hash "#!/" = false)
    (hel : elementExists env (String.mk (env.hash.data.drop 1)) = true) :
    handleRouteChange env s
      = ⟨env, s, ⟨[], [], [], [], [Scheduled.smoothScrollTo (String.mk (env.hash.data.drop 1))]⟩⟩ := by
  unfold handleRouteChange isNativeAnchor
  rw [hd, hm, hel]
  rfl

/-- C8 witness: a hash of the form hash-section1 with an element of id
section1 present takes the anchor path on a fresh router. -/
theorem c8_native_anchor_bypass_witness :
    ((mkInitial envAnchor).destroyed = false
      ∧ strStarts envAnchor.hash "#!/" = false
      ∧ elementExists envAnchor (String.mk (envAnchor.hash.data.drop 1)) = true)
    ∧ handleRouteChange envAnchor (mkInitial envAnchor)
      = ⟨envAnchor, mkInitial envAnchor,
         ⟨[], [], [], [], [Scheduled.smoothScrollTo (String.mk (envAnchor.hash.data.drop 1))]⟩⟩ := by
  exact ⟨⟨by decide, by decide, by decide⟩,
    c8_native_anchor_bypass envAnchor (mkInitial envAnchor) (by decide) (by decide) (by decide)⟩

/-- C9: coerceValue is a total deterministic function into the union of
boolean, null, undefined, number and string; the four literals map to
their values ahead of any numeric parse, a non-literal string that
Number-parses (and does not trim to empty) maps to that number, a
non-literal string that does not Number-parse is returned unchanged;
in particular the listed concrete inputs map as claimed. -/
theorem c9_coerce_value_spec :
    coerceValue "true" = JSValue.boolean true
    ∧ coerceValue "false" = JSValue.boolean false
    ∧ coerceValue "null" = JSValue.null
    ∧ coerceValue "undefined" = JSValue.undef
    ∧ coerceValue "42" = JSValue.number (JSNum.fin ⟨42, 1⟩)
    ∧ coerceValue "4.5" = JSValue.number (JSNum.fin ⟨9, 2⟩)
    ∧ coerceValue "abc" = JSValue.string "abc"
    ∧ coerceValue "" = JSValue.string ""
    ∧ (∀ s : String, s ≠ "true" → s ≠ "false" → s ≠ "null" → s ≠ "undefined" →
        jsStrToNum s = none → coerceValue s = JSValue.string s)
    ∧ (∀ (s : String) (n : JSNum), s ≠ "true" → s ≠ "false" → s ≠ "null" → s ≠ "undefined" →
        jsStrToNum s = some n → jsTrim s ≠ "" → coerceValue s = JSValue.number n) := by
  refine ⟨by decide, by decide, by decide, by decide, by decide, by decide, by decide, by decide,
    ?_, ?_⟩
  · intro s h1 h2 h3 h4 hn
    simp only [coerceValue, h1, h2, h3, h4, if_false, hn]
  · intro s n h1 h2 h3 h4 hn ht
    simp only [coerceValue, h1, h2, h3, h4, if_false, hn, ht]
    simp [ht]

/-- C9 witness: the two general components applied at the concrete
inputs abc (no numeric parse, returned unchanged) and 7 (numeric parse
succeeds, number returned). -/
theorem c9_coerce_value_spec_witness :
    (jsStrToNum "abc" = none ∧ coerceValue "abc" = JSValue.string "abc")
    ∧ (jsStrToNum "7" = some (JSNum.fin ⟨7, 1⟩) ∧ jsTrim "7" ≠ ""
        ∧ coerceValue "7" = JSValue.number (JSNum.fin ⟨7, 1⟩)) := by
  refine ⟨⟨by decide, ?_⟩, ⟨by decide, by decide, ?_⟩⟩
  · exact c9_coerce_value_spec.2.2.2.2.2.2.2.2.1 "abc"
      (by decide) (by decide) (by decide) (by decide) (by decide)
  · exact c9_coerce_value_spec.2.2.2.2.2.2.2.2.2 "7" (JSNum.fin ⟨7, 1⟩)
      (by decide) (by decide) (by decide) (by decide) (by decide) (by decide)

/-- C6: a commit on a live router sets previous to the old current and
current to the candidate; every after-hook is invoked, in registration
order, with the candidate and the pre-assignment current — a hook fault
neither removes later hooks from the invocation list nor blocks the
commit; the stored scroll record of the candidate path is scheduled for
restoration and the success status event is emitted. -/
theorem c6_commit_hooks_scroll_status (s : RouterState) (cand : RouteObj)
    (hd : s.destroyed = false) :
    (completeNavigation s cand).state.prevRoute = s.route
    ∧ (completeNavigation s cand).state.route = cand
    ∧ (completeNavigation s cand).trace.hookCalls
        = s.afterListeners.map (fun h => (cand, s.route, h.2 cand s.route))
    ∧ (∀ r2, getScroll s.scrollPositions cand.path = some r2 →
        Scheduled.restoreTo r2 ∈ (completeNavigation s cand).trace.scheduled)
    ∧ (statusSuccessMsg, Severity.success) ∈ (completeNavigation s cand).trace.status := by
  unfold completeNavigation
  rw [hd]
  refine ⟨?_, ?_, ?_, ?_, ?_⟩
  · simp
  · simp
  · simp
  · intro r2 hr2
    simp only [Bool.false_eq_true, if_false, trace_cat_scheduled]
    refine List.mem_append.mpr (Or.inl (List.mem_append.mpr (Or.inr ?_)))
    exact mem_restoreScroll_scheduled _ _ _ hr2
  · simp

/-- C6 witness: a router with a throwing first hook, a passing second
hook and a stored record for the candidate path p commits, both hooks
are invoked in order with the candidate and old current, the record is
scheduled and success is emitted. -/
theorem c6_commit_hooks_scroll_status_witness :
    (stateHooks.destroyed = false
      ∧ getScroll stateHooks.scrollPositions (makeRoute ("#!/p") "").path
          = some ⟨3, 4, 5, "p"⟩)
    ∧ (completeNavigation stateHooks (makeRoute ("#!/p") "")).state.prevRoute = stateHooks.route
    ∧ (completeNavigation stateHooks (makeRoute ("#!/p") "")).state.route = makeRoute ("#!/p") ""
    ∧ (completeNavigation stateHooks (makeRoute ("#!/p") "")).trace.hookCalls
        = stateHooks.afterListeners.map
            (fun h => (makeRoute ("#!/p") "", stateHooks.route,
              h.2 (makeRoute ("#!/p") "") stateHooks.route))
    ∧ Scheduled.restoreTo ⟨3, 4, 5, "p"⟩
        ∈ (completeNavigation stateHooks (makeRoute ("#!/p") "")).trace.scheduled
    ∧ (statusSuccessMsg, Severity.success)
        ∈ (completeNavigation stateHooks (makeRoute ("#!/p") "")).trace.status := by
  have h := c6_commit_hooks_scroll_status stateHooks (makeRoute ("#!/p") "") (by decide)
  exact ⟨⟨by decide, by decide⟩, h.1, h.2.1, h.2.2.1,
    h.2.2.2.1 ⟨3, 4, 5, "p"⟩ (by decide), h.2.2.2.2⟩

/-- Shape of a refused programmatic navigation: resolve false, leave
the environment, return the guard-phase state, emit loading then the
guard-phase trace. -/
theorem changeHash_fail_eq (env : Env) (s : RouterState) (p : String) (repl : Bool)
    (hok : (canNavigate env s (tempRouteOf env p)).ok = false) :
    changeHash env s p repl
      = ⟨false, env, (canNavigate env s (tempRouteOf env p)).state,
         (⟨[(statusLoadingMsg, Severity.loading)], [], [], [], []⟩ : Trace)
           ++ (canNavigate env s (tempRouteOf env p)).trace⟩ := by
  unfold changeHash
  simp only [hok, Bool.false_eq_true, if_false]

/-- Shape of a hashchange cycle whose guard phase refuses: address and
last processed hash rewritten to the rollback address computed from the
guard-phase state. -/
theorem handleRouteChange_fail_eq (env : Env) (s : RouterState)
    (hd : s.destroyed = false) (ha : isNativeAnchor env env.hash = false)
    (hneq : env.hash ≠ s.lastHash)
    (hok : (canNavigate env s (makeRoute env.hash env.search)).ok = false) :
    handleRouteChange env s
      = ⟨{ env with hash :=
            if (canNavigate env s (makeRoute env.hash env.search)).state.prevRoute.path ≠ ""
            then "#!/" ++ (canNavigate env s (makeRoute env.hash env.search)).state.prevRoute.path
            else "" },
         { (canNavigate env s (makeRoute env.hash env.search)).state with lastHash :=
            if (canNavigate env s (makeRoute env.hash env.search)).state.prevRoute.path ≠ ""
            then "#!/" ++ (canNavigate env s (makeRoute env.hash env.search)).state.prevRoute.path
            else "" },
         (⟨[(statusLoadingMsg, Severity.loading)], [], [], [], []⟩ : Trace)
           ++ (canNavigate env s (makeRoute env.hash env.search)).trace⟩ := by
  unfold handleRouteChange
  simp only [hd, ha, Bool.false_eq_true, if_false, if_neg hneq, hok]

/-- A change notification for an address equal to the recorded one is
ignored on a live router (idle-if-unchanged). -/
theorem handleRouteChange_noop (env : Env) (s : RouterState) (hd : s.destroyed = false)
    (ha : isNativeAnchor env env.hash = false) (he : env.hash = s.lastHash) :
    handleRouteChange env s = ⟨env, s, Trace.emp⟩ := by
  unfold handleRouteChange
  simp only [hd, ha, Bool.false_eq_true, if_false, if_pos he]

/-- An address built by prepending the routing marker is never taken
for a native anchor. -/
theorem strStarts_marker_append (p : String) : strStarts ("#!/" ++ p) "#!/" = true := by
  have hd : ("#!/" ++ p).data = '#' :: '!' :: '/' :: p.data := by
    show ("#!/" : String).data ++ p.data = _
    rfl
  simp [strStarts, hd, listStarts]

/-- C2: when some before-guard signals failure during a programmatic
push or replace, the call resolves false (the fault never reaches the
caller — changeHash is total and returns a boolean), the current and
previous snapshots and the last processed hash are unchanged, the
environment (in particular the address) is never written, and an
error-tagged status event whose text carries a failing guard message is
emitted. -/
theorem c2_guard_veto_preserves_state (env : Env) (s : RouterState) (p : String)
    (repl : Bool) (hd : s.destroyed = false)
    (hfail : ∃ g ∈ s.beforeListeners, ∃ m, g.2 (tempRouteOf env p) s.route = Except.error m) :
    (changeHash env s p repl).resolved = false
    ∧ (changeHash env s p repl).state.route = s.route
    ∧ (changeHash env s p repl).state.prevRoute = s.prevRoute
    ∧ (changeHash env s p repl).state.lastHash = s.lastHash
    ∧ (changeHash env s p repl).env = env
    ∧ currentRoute (changeHash env s p repl).state = currentRoute s
    ∧ ∃ m2, runGuardsExcept s.beforeListeners (tempRouteOf env p) s.route = Except.error m2
        ∧ (statusErrMark ++ m2, Severity.error) ∈ (changeHash env s p repl).trace.status := by
  obtain ⟨m2, hrun⟩ := runGuards_error_of_exists s.beforeListeners (tempRouteOf env p) s.route hfail
  have hc := canNavigate_fail env s (tempRouteOf env p) hd m2 hrun
  rw [changeHash_fail_eq env s p repl hc.1]
  refine ⟨rfl, hc.2.1, hc.2.2.1, hc.2.2.2.1, rfl, hc.2.1, m2, hrun, ?_⟩
  rw [trace_cat_status]
  exact List.mem_append.mpr (Or.inr hc.2.2.2.2.2)

/-- C2 witness: a fresh router with one always-failing before-guard;
push of target x resolves false, keeps both snapshots and the address,
and emits the error status event. -/
theorem c2_guard_veto_preserves_state_witness :
    (stateFailGuard.destroyed = false
      ∧ (1, failGuard) ∈ stateFailGuard.beforeListeners
      ∧ failGuard (tempRouteOf envA "/x") stateFailGuard.route = Except.error "Guard failure")
    ∧ (changeHash envA stateFailGuard "/x" false).resolved = false
    ∧ (changeHash envA stateFailGuard "/x" false).state.route = stateFailGuard.route
    ∧ (changeHash envA stateFailGuard "/x" false).state.prevRoute = stateFailGuard.prevRoute
    ∧ (changeHash envA stateFailGuard "/x" false).env = envA
    ∧ ∃ m2, runGuardsExcept stateFailGuard.beforeListeners (tempRouteOf envA "/x")
          stateFailGuard.route = Except.error m2
        ∧ (statusErrMark ++ m2, Severity.error)
            ∈ (changeHash envA stateFailGuard "/x" false).trace.status := by
  have h := c2_guard_veto_preserves_state envA stateFailGuard "/x" false rfl
    ⟨(1, failGuard), List.mem_singleton.mpr rfl, "Guard failure", rfl⟩
  exact ⟨⟨rfl, List.mem_singleton.mpr rfl, rfl⟩, h.1, h.2.1, h.2.2.1, h.2.2.2.2.1, h.2.2.2.2.2.2⟩

/-- C5: when the guard phase of a hashchange cycle fails on a live
router, the address is forcibly rewritten to the marker-prefixed
previous committed path (or to the empty address when that path is
empty) and the last-known-address record is set to the same string, so
the rollback write is deduplicated rather than reprocessed. -/
theorem c5_rollback_address (env : Env) (s : RouterState)
    (hd : s.destroyed = false)
    (ha : isNativeAnchor env env.hash = false)
    (hneq : env.hash ≠ s.lastHash)
    (hfail : ∃ g ∈ s.beforeListeners, ∃ m,
        g.2 (makeRoute env.hash env.search) s.route = Except.error m) :
    (handleRouteChange env s).env.hash
        = (if s.prevRoute.path ≠ "" then "#!/" ++ s.prevRoute.path else "")
    ∧ (handleRouteChange env s).state.lastHash = (handleRouteChange env s).env.hash
    ∧ handleRouteChange (handleRouteChange env s).env (handleRouteChange env s).state
        = ⟨(handleRouteChange env s).env, (handleRouteChange env s).state, Trace.emp⟩ := by
  obtain ⟨m2, hrun⟩ :=
    runGuards_error_of_exists s.beforeListeners (makeRoute env.hash env.search) s.route hfail
  have hc := canNavigate_fail env s (makeRoute env.hash env.search) hd m2 hrun
  rw [handleRouteChange_fail_eq env s hd ha hneq hc.1]
  rw [hc.2.2.1]
  refine ⟨rfl, rfl, ?_⟩
  refine handleRouteChange_noop _ _ hc.2.2.2.2.1 ?_ rfl
  by_cases hpp : s.prevRoute.path = ""
  · simp [hpp, isNativeAnchor, elementExists, strStarts, listStarts]
  · simp only [ne_eq, hpp, not_false_eq_true, if_pos]
    unfold isNativeAnchor
    rw [strStarts_marker_append]
    rfl

/-- C5 witness: a router whose previous committed path is empty, with an
always-failing guard, processing a hashchange to a route address: the
address is rolled back to the empty string, matching the recorded last
hash. -/
theorem c5_rollback_address_witness :
    (stateFailGuard.destroyed = false
      ∧ isNativeAnchor envB envB.hash = false
      ∧ envB.hash ≠ stateFailGuard.lastHash
      ∧ (1, failGuard) ∈ stateFailGuard.beforeListeners
      ∧ failGuard (makeRoute envB.hash envB.search) stateFailGuard.route
          = Except.error "Guard failure")
    ∧ (handleRouteChange envB stateFailGuard).env.hash
        = (if stateFailGuard.prevRoute.path ≠ "" then "#!/" ++ stateFailGuard.prevRoute.path else "")
    ∧ (handleRouteChange envB stateFailGuard).state.lastHash
        = (handleRouteChange envB stateFailGuard).env.hash := by
  have h := c5_rollback_address envB stateFailGuard rfl (by decide) (by decide)
    ⟨(1, failGuard), List.mem_singleton.mpr rfl, "Guard failure", rfl⟩
  exact ⟨⟨rfl, by decide, by decide, List.mem_singleton.mpr rfl, rfl⟩, h.1, h.2.1⟩

/-- The split function never returns an empty segment list. -/
theorem splitOnChar_ne_nil (sep : Char) (cs : List Char) : splitOnChar sep cs ≠ [] := by
  induction cs with
  | nil => simp [splitOnChar]
  | cons c cs ih =>
    unfold splitOnChar
    cases h : splitOnChar sep cs with
    | nil => simp
    | cons hd2 tl => by_cases hc : c = sep <;> simp [hc]

/-- The first split segment is the longest separator-free leading run. -/
theorem splitOnChar_headD (sep : Char) (cs : List Char) :
    (splitOnChar sep cs).headD [] = cs.takeWhile (fun c => c != sep) := by
  induction cs with
  | nil => rfl
  | cons c cs ih =>
    unfold splitOnChar
    cases h : splitOnChar sep cs with
    | nil => exact absurd h (splitOnChar_ne_nil sep cs)
    | cons hd2 tl =>
      rw [h] at ih
      by_cases hc : c = sep
      · subst hc
        simp [List.takeWhile_cons]
      · simp only [List.takeWhile_cons, bne_iff_ne, ne_eq, hc, not_false_eq_true,
          if_pos, if_neg, List.headD_cons] at ih ⊢
        simp [hc, ih]

/-- The second split segment is the text between the first and second
separator occurrence. -/
theorem splitOnChar_getD_one (sep : Char) (cs : List Char) :
    (splitOnChar sep cs).getD 1 [] = secondSegModel sep cs := by
  induction cs with
  | nil => rfl
  | cons c cs ih =>
    unfold splitOnChar
    cases h : splitOnChar sep cs with
    | nil => exact absurd h (splitOnChar_ne_nil sep cs)
    | cons hd2 tl =>
      rw [h] at ih
      by_cases hc : c = sep
      · subst hc
        have hh := splitOnChar_headD c cs
        rw [h] at hh
        simp only [List.headD_cons] at hh
        simp [secondSegModel, List.dropWhile_cons, hh]
      · simp only [secondSegModel, List.dropWhile_cons, bne_iff_ne, ne_eq, hc,
          not_false_eq_true, if_pos] at ih ⊢
        simp [hc]
        simpa using ih

/-- C4 counterexample: the builder disagrees with the claimed stripping
and splitting at concrete inputs — a bare hash mark without the bang is
not stripped (path keeps the hash mark), and text after a second
question mark is discarded from the hash query rather than kept. -/
theorem c4_split_claim_cex :
    routePath "#a?b?c" = "#a"
    ∧ routeHashQuery "#a?b?c" = "b"
    ∧ c4SpecPath "#a?b?c" = "a"
    ∧ c4SpecHashQuery "#a?b?c" = "b?c"
    ∧ routePath "#a?b?c" ≠ c4SpecPath "#a?b?c"
    ∧ routeHashQuery "#a?b?c" ≠ c4SpecHashQuery "#a?b?c"
    ∧ routeHashQuery "#!/p?x=1?y=2" = "x=1"
    ∧ c4SpecHashQuery "#!/p?x=1?y=2" = "x=1?y=2"
    ∧ routeHashQuery "#!/p?x=1?y=2" ≠ c4SpecHashQuery "#!/p?x=1?y=2" := by
  refine ⟨by decide, by decide, by decide, by decide, by decide, by decide, by decide,
    by decide, by decide⟩

/-- C4 as amended: the marker is stripped only when the fragment begins
with hash-bang (hash-bang-slash drops all three characters, hash-bang
alone drops two and a following slash when present, any other fragment
is left whole); the stripped text is split on every question mark —
path is the run before the first question mark (hence never contains
one, and is empty when the stripped text is empty or starts with a
question mark), and the hash query is only the text between the first
and second question mark, anything after a second question mark being
discarded. -/
theorem c4_split_amended :
    (∀ hash : String,
        routePath hash = String.mk ((routeRaw hash).takeWhile (fun c => c != '?'))
        ∧ routeHashQuery hash = String.mk (secondSegModel '?' (routeRaw hash))
        ∧ (routePath hash).data.all (fun c => c != '?') = true)
    ∧ (∀ hash : String, hash.data.take 2 ≠ ['#', '!'] → routeRaw hash = hash.data)
    ∧ (∀ t : List Char, routeRaw (String.mk ('#' :: '!' :: '/' :: t)) = t)
    ∧ (∀ t : List Char, t.take 1 ≠ ['/'] → routeRaw (String.mk ('#' :: '!' :: t)) = t) := by
  refine ⟨?_, ?_, ?_, ?_⟩
  · intro hash
    refine ⟨?_, ?_, ?_⟩
    · unfold routePath hashParts
      rw [splitOnChar_headD]
    · unfold routeHashQuery hashParts
      rw [splitOnChar_getD_one]
    · unfold routePath hashParts
      rw [splitOnChar_headD]
      show ((routeRaw hash).takeWhile (fun c => c != '?')).all (fun c => c != '?') = true
      induction routeRaw hash with
      | nil => rfl
      | cons c cs ih =>
        by_cases hc : c = '?'
        · simp [List.takeWhile_cons, hc]
        · simp only [List.takeWhile_cons, bne_iff_ne, ne_eq, hc, not_false_eq_true, if_pos,
            List.all_cons, Bool.and_eq_true]
          exact ⟨by simp [hc], ih⟩
  · intro hash h2
    have hA : ¬ (hash.data.take 3 = ['#', '!', '/']) := by
      intro h3
      apply h2
      rw [show (2 : Nat) = min 2 3 from rfl, ← List.take_take, h3]
      rfl
    unfold routeRaw
    rw [if_neg hA, if_neg h2]
  · intro t
    unfold routeRaw
    simp
  · intro t h1
    cases t with
    | nil => unfold routeRaw; simp
    | cons a t2 =>
      have ha : ¬ (a = '/') := by
        intro h
        apply h1
        rw [h]
        rfl
      unfold routeRaw
      simp [ha]

/-- C4 amended witness: the conditional stripping components applied at
concrete inputs — a fragment without the marker is left whole, and a
hash-bang fragment not followed by a slash loses exactly the two marker
characters. -/
theorem c4_split_amended_witness :
    (("abc" : String).data.take 2 ≠ ['#', '!'] ∧ routeRaw "abc" = ("abc" : String).data)
    ∧ ((['x'] : List Char).take 1 ≠ ['/']
        ∧ routeRaw (String.mk ('#' :: '!' :: ['x'])) = ['x']) := by
  exact ⟨⟨by decide, c4_split_amended.2.1 "abc" (by decide)⟩,
    ⟨by decide, c4_split_amended.2.2.2 ['x'] (by decide)⟩⟩

/-- Reading below the left part of an appended list ignores the right
part. -/
theorem vr_getD_append {α : Type} (l l2 : List α) (i : Nat) (d : α) (hi : i < l.length) :
    (l ++ l2).getD i d = l.getD i d := by
  induction l generalizing i with
  | nil => exact absurd hi (Nat.not_lt_zero i)
  | cons a t ih =>
    cases i with
    | zero => rfl
    | succ j =>
      rw [List.cons_append, List.getD_cons_succ, List.getD_cons_succ]
      exact ih j (Nat.lt_of_succ_lt_succ hi)

/-- Writing at or beyond the length of the left part of an appended
list only touches the right part. -/
theorem vr_set_append_add {α : Type} (l l2 : List α) (k : Nat) (y : α) :
    (l ++ l2).set (l.length + k) y = l ++ l2.set k y := by
  induction l with
  | nil => simp
  | cons a t ih =>
    have harith : (a :: t).length + k = (t.length + k) + 1 := by
      simp [List.length_cons]
      omega
    rw [List.cons_append, harith, List.set_cons_succ, ih, List.cons_append]

/-- Writing exactly at the length of the left part rewrites the head of
the right part. -/
theorem vr_set_append_zero {α : Type} (l l2 : List α) (y : α) :
    (l ++ l2).set l.length y = l ++ l2.set 0 y := by
  have h := vr_set_append_add l l2 0 y
  rw [Nat.add_zero] at h
  exact h

/-- C10: currentRoute, previousRoute and getRouteState return freshly
allocated shallow copies, so assigning to the top-level path field of
any returned object leaves the internal current and previous snapshots
unchanged. -/
theorem c10_getters_return_copies (h : RefHeap) (p1 p2 p3 p4 : String)
    (hr : h.routeIdx < h.objs.length) (hp : h.prevIdx < h.objs.length) :
    heapRead (assignPathRef (currentRouteRef h).2 (currentRouteRef h).1 p1) h.routeIdx
        = heapRead h h.routeIdx
    ∧ heapRead (assignPathRef (currentRouteRef h).2 (currentRouteRef h).1 p1) h.prevIdx
        = heapRead h h.prevIdx
    ∧ heapRead (assignPathRef (previousRouteRef h).2 (previousRouteRef h).1 p2) h.routeIdx
        = heapRead h h.routeIdx
    ∧ heapRead (assignPathRef (previousRouteRef h).2 (previousRouteRef h).1 p2) h.prevIdx
        = heapRead h h.prevIdx
    ∧ heapRead (assignPathRef (assignPathRef (getRouteStateRef h).2 (getRouteStateRef h).1.1 p3)
          (getRouteStateRef h).1.2 p4) h.routeIdx = heapRead h h.routeIdx
    ∧ heapRead (assignPathRef (assignPathRef (getRouteStateRef h).2 (getRouteStateRef h).1.1 p3)
          (getRouteStateRef h).1.2 p4) h.prevIdx = heapRead h h.prevIdx := by
  have single : ∀ (c v : RouteObj) (i : Nat), i < h.objs.length →
      ((h.objs ++ [c]).set h.objs.length v).getD i default = h.objs.getD i default := by
    intro c v i hi
    rw [vr_set_append_zero]
    exact vr_getD_append h.objs _ i default hi
  have double : ∀ (c d2 v3 v4 : RouteObj) (i : Nat), i < h.objs.length →
      ((((h.objs ++ [c]) ++ [d2]).set h.objs.length v3).set (h.objs ++ [c]).length v4).getD
          i default = h.objs.getD i default := by
    intro c d2 v3 v4 i hi
    rw [List.append_assoc]
    rw [vr_set_append_zero]
    have hlen : (h.objs ++ [c]).length = h.objs.length + 1 := by simp
    rw [hlen, vr_set_append_add]
    exact vr_getD_append h.objs _ i default hi
  refine ⟨single _ _ h.routeIdx hr, single _ _ h.prevIdx hp,
    single _ _ h.routeIdx hr, single _ _ h.prevIdx hp,
    double _ _ _ _ h.routeIdx hr, double _ _ _ _ h.prevIdx hp⟩

/-- C10 witness: on a concrete two-object heap, mutating the path of
each returned copy leaves both internal snapshots as they were. -/
theorem c10_getters_return_copies_witness :
    (heapW.routeIdx < heapW.objs.length ∧ heapW.prevIdx < heapW.objs.length)
    ∧ heapRead (assignPathRef (currentRouteRef heapW).2 (currentRouteRef heapW).1 "z")
        heapW.routeIdx = heapRead heapW heapW.routeIdx
    ∧ heapRead (assignPathRef (previousRouteRef heapW).2 (previousRouteRef heapW).1 "z")
        heapW.prevIdx = heapRead heapW heapW.prevIdx
    ∧ heapRead (assignPathRef (assignPathRef (getRouteStateRef heapW).2
          (getRouteStateRef heapW).1.1 "z") (getRouteStateRef heapW).1.2 "z")
        heapW.routeIdx = heapRead heapW heapW.routeIdx := by
  have h := c10_getters_return_copies heapW "z" "z" "z" "z" (by decide) (by decide)
  exact ⟨⟨by decide, by decide⟩, h.1, h.2.2.2.1, h.2.2.2.2.1⟩

end VRouter
